import Mathlib

/-!
# NB-IoT sampling simulator (`src/nbiot-project/src/simulation-script.cpp`)

A shallow embedding of `RealisticSimulator` and of the battery-life lines of
`scratch/nbiot-pur-experiment.cc`.

Conventions of the embedding.

* A C++ `double` is an exact real number (`ℝ`): rounding, infinities and NaN are not modelled.
  A division whose divisor is zero has no real value (the source yields an infinity or a NaN);
  no claim below is stated at an input where its truth relies on the value Lean gives to such a
  quotient. Where rounding decides a property, the strictness of the order of the battery life,
  the operations are modelled in binary64 on rationals (`round64`).
* An `int` that counts devices or indexes a device is a natural number: the loops of the source
  only ever run over `0 ≤ i < numDevices`, and on non-negative operands the C++ `/` and `%`
  coincide with the ones of `ℕ`.
* The members `rng`, `uniform_dist` and `normal_dist` are a state `σ` that is passed explicitly:
  a draw takes the state and returns the value together with the next state.
-/

namespace NbIot

/-! ## Data model -/

/-- The random members of `RealisticSimulator` (lines 17-19) as an explicit state machine:
`uniform s` is `uniform_dist(rng)` and `normal s` is `normal_dist(rng)` evaluated in state `s`. -/
structure RandomSource (σ : Type) where
  /-- One evaluation of `uniform_dist(rng)`. -/
  uniform : σ → ℝ × σ
  /-- One evaluation of `normal_dist(rng)`. -/
  normal : σ → ℝ × σ

/-- The struct `SimulationResult` (lines 26-36). -/
structure SimulationResult where
  mode : String
  numDevices : ℕ
  avgEnergy : ℝ
  avgLatency : ℝ
  energyStdDev : ℝ
  latencyStdDev : ℝ
  batteryLife : ℝ
  individualEnergies : List ℝ
  individualLatencies : List ℝ

/-- The call `std::accumulate(first, last, init)` on a vector of doubles: a left fold of `+`. -/
def accumulate (values : List ℝ) (init : ℝ) : ℝ :=
  values.foldl (fun acc v => acc + v) init

/-! ## Device sampler -/

/-- The method `calculateDistanceEffect` (lines 38-45). `(int)gridSize` is the floor of the square
root. -/
noncomputable def calculateDistanceEffect (deviceIndex totalDevices : ℕ) : ℝ :=
  let gridSize : ℝ := Real.sqrt (totalDevices : ℝ)
  let x : ℝ := ((deviceIndex % ⌊gridSize⌋₊ : ℕ) : ℝ)
  let y : ℝ := ((deviceIndex / ⌊gridSize⌋₊ : ℕ) : ℝ)
  let distance : ℝ := Real.sqrt (x * x + y * y)
  1.0 + (distance / gridSize) * 0.5

/-- The method `calculateInterferenceEffect` (lines 47-63); it makes one uniform draw. -/
noncomputable def calculateInterferenceEffect {σ : Type} (G : RandomSource σ)
    (_deviceIndex totalDevices : ℕ) (mode : String) (s : σ) : ℝ × σ :=
  let interference : ℝ :=
    if mode = "RAP" then ((totalDevices : ℝ) / 1000.0) * 0.3
    else if mode = "EDT" then ((totalDevices : ℝ) / 1000.0) * 0.2
    else ((totalDevices : ℝ) / 1000.0) * 0.1
  let u := G.uniform s
  (1.0 + interference * (0.8 + u.1 * 0.4), u.2)

/-- The noise multiplier `0.95 + normal_dist(rng) * 0.1` of line 97, as a function of the normal
draw. -/
noncomputable def noiseFactor (z : ℝ) : ℝ :=
  0.95 + z * 0.1

/-- The body of the device loop of `runSimulation` (lines 87-105) for device `i`: the pair
`(deviceEnergy, deviceLatency)` and the state after the three draws. -/
noncomputable def deviceSample {σ : Type} (G : RandomSource σ) (mode : String) (numDevices : ℕ)
    (baseEnergy baseLatency : ℝ) (i : ℕ) (s : σ) : (ℝ × ℝ) × σ :=
  let v := G.uniform s
  let individualVariation : ℝ := 0.9 + v.1 * 0.2
  let distanceEffect : ℝ := calculateDistanceEffect i numDevices
  let f := calculateInterferenceEffect G i numDevices mode v.2
  let interferenceEffect : ℝ := f.1
  let z := G.normal f.2
  let noise : ℝ := noiseFactor z.1
  let deviceEnergy : ℝ :=
    baseEnergy * individualVariation * distanceEffect * interferenceEffect * noise
  let deviceLatency : ℝ :=
    baseLatency * individualVariation * distanceEffect
      * (1.0 + ((numDevices : ℝ) / 10000.0)) * noise
  ((deviceEnergy, deviceLatency), z.2)

/-- The device loop `for (int i = 0; i < numDevices; i++)` of `runSimulation` (lines 86-109),
started at index `i` with `k` iterations left: the energies and latencies pushed back, in order,
and the final state. -/
noncomputable def deviceLoop {σ : Type} (G : RandomSource σ) (mode : String) (numDevices : ℕ)
    (baseEnergy baseLatency : ℝ) : ℕ → ℕ → σ → (List ℝ × List ℝ) × σ
  | _, 0, s => (([], []), s)
  | i, k + 1, s =>
    let d := deviceSample G mode numDevices baseEnergy baseLatency i s
    let rest := deviceLoop G mode numDevices baseEnergy baseLatency (i + 1) k d.2
    ((d.1.1 :: rest.1.1, d.1.2 :: rest.1.2), rest.2)

/-- The sum of squared deviations accumulated by the loops of lines 124-127 and 285-287. -/
def squaredDeviations (values : List ℝ) (mean : ℝ) : ℝ :=
  values.foldl (fun acc v => acc + (v - mean) ^ 2) 0.0

/-! ## Trial runner -/

/-- The base energy drawn by `runSimulation` for a mode from the uniform draw `u` (lines 74-83). -/
noncomputable def drawBaseEnergy (mode : String) (u : ℝ) : ℝ :=
  if mode = "RAP" then 4.0 + u * 2.0
  else if mode = "EDT" then 3.0 + u * 1.5
  else 2.0 + u * 1.0

/-- The base latency drawn by `runSimulation` for a mode from the uniform draw `u`
(lines 74-83). -/
noncomputable def drawBaseLatency (mode : String) (u : ℝ) : ℝ :=
  if mode = "RAP" then 400.0 + u * 200.0
  else if mode = "EDT" then 200.0 + u * 100.0
  else 100.0 + u * 80.0

/-- The method `runSimulation` (lines 65-141): the result and the state after the trial. -/
noncomputable def runSimulation {σ : Type} (G : RandomSource σ) (mode : String)
    (numDevices : ℕ) (s : σ) : SimulationResult × σ :=
  let u1 := G.uniform s
  let baseEnergy : ℝ := drawBaseEnergy mode u1.1
  let u2 := G.uniform u1.2
  let baseLatency : ℝ := drawBaseLatency mode u2.1
  let loop := deviceLoop G mode numDevices baseEnergy baseLatency 0 numDevices u2.2
  let individualEnergies := loop.1.1
  let individualLatencies := loop.1.2
  let avgEnergy : ℝ := accumulate individualEnergies 0.0 / (numDevices : ℝ)
  let avgLatency : ℝ := accumulate individualLatencies 0.0 / (numDevices : ℝ)
  let energyVariance : ℝ := squaredDeviations individualEnergies avgEnergy
  let latencyVariance : ℝ := squaredDeviations individualLatencies avgLatency
  let dailyEnergy : ℝ := avgEnergy * 24.0
  let batteryCapacity : ℝ := 18000.0
  let j := G.uniform loop.2
  ({ mode := mode
     numDevices := numDevices
     avgEnergy := avgEnergy
     avgLatency := avgLatency
     energyStdDev := Real.sqrt (energyVariance / (numDevices : ℝ))
     latencyStdDev := Real.sqrt (latencyVariance / (numDevices : ℝ))
     batteryLife := batteryCapacity / (dailyEnergy * 365.0) * (0.9 + j.1 * 0.2)
     individualEnergies := individualEnergies
     individualLatencies := individualLatencies }, j.2)

/-! ## Multi-trial aggregator -/

/-- The loop `for (int repeat = 0; repeat < 3; repeat++)` of lines 165-168 with `k` repetitions
left: the trial results pushed back, in order, and the final state. -/
noncomputable def repeatSimulation {σ : Type} (G : RandomSource σ) (mode : String)
    (numDevices : ℕ) : ℕ → σ → List SimulationResult × σ
  | 0, s => ([], s)
  | k + 1, s =>
    let r := runSimulation G mode numDevices s
    let rest := repeatSimulation G mode numDevices k r.2
    (r.1 :: rest.1, rest.2)

/-- The battery life `18000.0 / ((avgEnergy * 24.0) * 365.0)` of line 183. -/
noncomputable def aggregateBatteryLife (avgEnergy : ℝ) : ℝ :=
  18000.0 / ((avgEnergy * 24.0) * 365.0)

/-- The `SimulationResult avgResult` of lines 171-185. The aggregator assigns its `mode`,
`numDevices`, `avgEnergy`, `avgLatency` and `batteryLife` and nothing else: `energyStdDev` and
`latencyStdDev` are never assigned there and have no determined value, and the two vectors stay
empty. The embedding keeps the five assigned members. -/
structure AggregateResult where
  mode : String
  numDevices : ℕ
  avgEnergy : ℝ
  avgLatency : ℝ
  batteryLife : ℝ

/-- The averaging of the repetitions (lines 171-183). -/
noncomputable def averageResults (mode : String) (numDevices : ℕ)
    (repeatResults : List SimulationResult) : AggregateResult :=
  let totalEnergy : ℝ := repeatResults.foldl (fun acc res => acc + res.avgEnergy) 0.0
  let totalLatency : ℝ := repeatResults.foldl (fun acc res => acc + res.avgLatency) 0.0
  let avgEnergy : ℝ := totalEnergy / (repeatResults.length : ℝ)
  { mode := mode
    numDevices := numDevices
    avgEnergy := avgEnergy
    avgLatency := totalLatency / (repeatResults.length : ℝ)
    batteryLife := aggregateBatteryLife avgEnergy }

/-- The loop over `deviceCounts` (lines 161-190) for one mode: three trials per population size,
averaged. -/
noncomputable def runCounts {σ : Type} (G : RandomSource σ)
    (mode : String) : List ℕ → σ → List AggregateResult × σ
  | [], s => ([], s)
  | numDevices :: rest, s =>
    let rep := repeatSimulation G mode numDevices 3 s
    let avgResult := averageResults mode numDevices rep.1
    let r := runCounts G mode rest rep.2
    (avgResult :: r.1, r.2)

/-- The loop over `modes` (lines 158-191): `allResults` and the final state. -/
noncomputable def runModes {σ : Type} (G : RandomSource σ)
    (deviceCounts : List ℕ) : List String → σ → List AggregateResult × σ
  | [], s => ([], s)
  | mode :: rest, s =>
    let c := runCounts G mode deviceCounts s
    let r := runModes G deviceCounts rest c.2
    (c.1 ++ r.1, r.2)

/-- The population sizes of line 144. -/
def deviceCounts : List ℕ := [100, 500, 1000, 5000, 10000]

/-- The modes of line 145. -/
def modes : List String := ["RAP", "EDT", "PUR"]

/-- The generator members of the simulator with the engine and the normal distribution kept
apart: `rng.seed(v)` sets the whole engine state from `v` and leaves `normal_dist` alone,
`uniform_dist` keeps no state of its own, `normal_dist` may. -/
structure Engine (ε δ : Type) where
  /-- The engine state after `rng.seed(v)`. -/
  seedState : ℕ → ε
  /-- One evaluation of `uniform_dist(rng)`. -/
  uniform : ε → ℝ × ε
  /-- One evaluation of `normal_dist(rng)`. -/
  normal : ε × δ → ℝ × (ε × δ)

/-- The random source of an engine, on the pair of the engine state and the distribution
state. -/
def Engine.source {ε δ : Type} (E : Engine ε δ) : RandomSource (ε × δ) where
  uniform := fun s => ((E.uniform s.1).1, ((E.uniform s.1).2, s.2))
  normal := E.normal

/-- The computing part of `runMultipleSimulations` (lines 143-191): `allResults`. The reading of
the system clock is the input `clock`; `unsigned seed` keeps its low 32 bits. The state `s` is
the simulator's state at the call. -/
noncomputable def runMultipleSimulations {ε δ : Type} (E : Engine ε δ)
    (clock : ℕ) (s : ε × δ) : List AggregateResult :=
  let seed : ℕ := clock % 2 ^ 32
  (runModes E.source deviceCounts modes (E.seedState seed, s.2)).1

/-! ## Statistical analyzer -/

/-- The method `calculateStdDev` (lines 281-289). -/
noncomputable def calculateStdDev (values : List ℝ) : ℝ :=
  if values.isEmpty then 0.0
  else
    let mean : ℝ := accumulate values 0.0 / (values.length : ℝ)
    let variance : ℝ := squaredDeviations values mean
    Real.sqrt (variance / (values.length : ℝ))

/-- The loop of lines 245-249: the aggregate energies of the results whose mode is `"RAP"`. -/
def rapEnergies : List AggregateResult → List ℝ
  | [] => []
  | res :: rest => if res.mode = "RAP" then res.avgEnergy :: rapEnergies rest else rapEnergies rest

/-- The loop of lines 245-249: the aggregate energies of the results whose mode is `"EDT"`. -/
def edtEnergies : List AggregateResult → List ℝ
  | [] => []
  | res :: rest =>
    if res.mode = "RAP" then edtEnergies rest
    else if res.mode = "EDT" then res.avgEnergy :: edtEnergies rest
    else edtEnergies rest

/-- The loop of lines 245-249: the aggregate energies of the results of any other mode. -/
def purEnergies : List AggregateResult → List ℝ
  | [] => []
  | res :: rest =>
    if res.mode = "RAP" then purEnergies rest
    else if res.mode = "EDT" then purEnergies rest
    else res.avgEnergy :: purEnergies rest

/-- The half-width `1.96 * std / sqrt(size)` printed by lines 270-271. -/
noncomputable def confidenceHalfWidth (std : ℝ) (size : ℕ) : ℝ :=
  1.96 * std / Real.sqrt (size : ℝ)

/-- The numbers `performStatisticalAnalysis` computes and prints (lines 253-271). -/
structure AnalysisReport where
  avgRap : ℝ
  avgPur : ℝ
  improvement : ℝ
  rapHalfWidth : ℝ
  purHalfWidth : ℝ

/-- The computing part of `performStatisticalAnalysis` (lines 237-272): nothing is computed when
there is no `"RAP"` result or no `"PUR"` result. -/
noncomputable def performStatisticalAnalysis (results : List AggregateResult) :
    Option AnalysisReport :=
  let rap := rapEnergies results
  let pur := purEnergies results
  if ¬ rap.isEmpty ∧ ¬ pur.isEmpty then
    let avgRap : ℝ := accumulate rap 0.0 / (rap.length : ℝ)
    let avgPur : ℝ := accumulate pur 0.0 / (pur.length : ℝ)
    let improvement : ℝ := ((avgRap - avgPur) / avgRap) * 100.0
    let rapStd : ℝ := calculateStdDev rap
    let purStd : ℝ := calculateStdDev pur
    some { avgRap := avgRap
           avgPur := avgPur
           improvement := improvement
           rapHalfWidth := confidenceHalfWidth rapStd rap.length
           purHalfWidth := confidenceHalfWidth purStd pur.length }
  else none

/-- The population standard deviation of a list: the square root of the sum of the squared
deviations from the mean of the list, divided by the length of the list. -/
noncomputable def populationStdDev (values : List ℝ) : ℝ :=
  Real.sqrt
    ((values.map (fun v => (v - values.sum / (values.length : ℝ)) ^ 2)).sum
      / (values.length : ℝ))

/-- The distance factor as the specification words it: one plus half of the euclidean distance of
the grid cell `(x, y)` of device `i` from the origin, divided by the diagonal `√2 * √n` of the
`√n × √n` grid. -/
noncomputable def specDistanceFactor (i n : ℕ) : ℝ :=
  let x : ℝ := ((i % Nat.sqrt n : ℕ) : ℝ)
  let y : ℝ := ((i / Nat.sqrt n : ℕ) : ℝ)
  1 + (Real.sqrt (x ^ 2 + y ^ 2) / (Real.sqrt 2 * Real.sqrt (n : ℝ))) * 0.5

/-- A random source every uniform draw of which is `u` and every normal draw of which is `z`. -/
def constantSource (u z : ℝ) : RandomSource Unit where
  uniform := fun s => (u, s)
  normal := fun s => (z, s)

/-- A trial result with the given mean energy, mean latency and battery life, and nothing else. -/
def trialOf (mode : String) (avgEnergy avgLatency batteryLife : ℝ) : SimulationResult where
  mode := mode
  numDevices := 1
  avgEnergy := avgEnergy
  avgLatency := avgLatency
  energyStdDev := 0
  latencyStdDev := 0
  batteryLife := batteryLife
  individualEnergies := []
  individualLatencies := []

/-- An aggregate with the given mode and means, for a population of one. -/
noncomputable def aggregateOf (mode : String) (avgEnergy avgLatency : ℝ) : AggregateResult where
  mode := mode
  numDevices := 1
  avgEnergy := avgEnergy
  avgLatency := avgLatency
  batteryLife := aggregateBatteryLife avgEnergy

/-- A random source whose state counts the draws made so far; every draw is `0`. -/
def countingSource : RandomSource ℕ where
  uniform := fun c => (0, c + 1)
  normal := fun c => (0, c + 1)

/-- The one error of the specification's trial runner. -/
inductive TrialError where
  | InvalidPopulationSize
  deriving DecidableEq

/-- The trial runner as the specification words it: a population size below one is rejected with
`InvalidPopulationSize` before any draw, any other trial is the one of `runSimulation`. -/
noncomputable def specTrialRunner {σ : Type} (G : RandomSource σ) (mode : String)
    (numDevices : ℕ) (s : σ) : Except TrialError (SimulationResult × σ) :=
  if numDevices < 1 then Except.error TrialError.InvalidPopulationSize
  else Except.ok (runSimulation G mode numDevices s)

/-- The `x` of line 41 of `calculateDistanceEffect`: `deviceIndex % (int)gridSize`. -/
noncomputable def cellX (deviceIndex totalDevices : ℕ) : ℝ :=
  ((deviceIndex % ⌊Real.sqrt (totalDevices : ℝ)⌋₊ : ℕ) : ℝ)

/-- The `y` of line 42 of `calculateDistanceEffect`: `deviceIndex / (int)gridSize`. -/
noncomputable def cellY (deviceIndex totalDevices : ℕ) : ℝ :=
  ((deviceIndex / ⌊Real.sqrt (totalDevices : ℝ)⌋₊ : ℕ) : ℝ)

/-- Two random sources deliver the same draws from states related by `R`: related states give
the same uniform draw and the same normal draw, and the states after the draw are related
again. -/
structure SameDraws {σ τ : Type} (G : RandomSource σ) (H : RandomSource τ)
    (R : σ → τ → Prop) : Prop where
  uniform_eq : ∀ s t, R s t →
    (G.uniform s).1 = (H.uniform t).1 ∧ R (G.uniform s).2 (H.uniform t).2
  normal_eq : ∀ s t, R s t →
    (G.normal s).1 = (H.normal t).1 ∧ R (G.normal s).2 (H.normal t).2

/-- An engine whose draws are given, for each seed, by a sequence of uniform draws and a sequence
of normal draws: the state is the seed with the numbers of uniform and of normal draws made. -/
def streamEngine (us zs : ℕ → ℕ → ℝ) : Engine (ℕ × ℕ × ℕ) Unit where
  seedState := fun v => (v, 0, 0)
  uniform := fun e => (us e.1 e.2.1, (e.1, e.2.1 + 1, e.2.2))
  normal := fun s => (zs s.1.1 s.1.2.2, ((s.1.1, s.1.2.1, s.1.2.2 + 1), s.2))

/-- An engine whose normal distribution keeps a saved value, as `std::normal_distribution` does:
a normal draw returns the saved value when there is one, and otherwise returns `0` and saves
`0`. Every uniform draw is `0`; the engine state counts the draws taken from the engine. -/
def cachingEngine : Engine ℕ (Option ℝ) where
  seedState := fun v => v
  uniform := fun e => (0, e + 1)
  normal := fun s =>
    match s.2 with
    | some z => (z, (s.1, none))
    | none => (0, (s.1 + 1, some 0))

/-! ## Basic facts -/

theorem accumulate_eq_sum (values : List ℝ) (init : ℝ) :
    accumulate values init = init + values.sum := by
  unfold accumulate
  induction values generalizing init with
  | nil => simp
  | cons v vs ih => simp [List.foldl_cons, ih, add_assoc]

theorem squaredDeviations_eq_sum (values : List ℝ) (mean : ℝ) :
    squaredDeviations values mean = (values.map (fun v => (v - mean) ^ 2)).sum := by
  unfold squaredDeviations
  have h : ∀ (init : ℝ), values.foldl (fun acc v => acc + (v - mean) ^ 2) init
      = init + (values.map (fun v => (v - mean) ^ 2)).sum := by
    induction values with
    | nil => intro init; simp
    | cons v vs ih => intro init; simp [List.foldl_cons, ih, add_assoc]
  rw [h]; norm_num

theorem floor_sqrt_eq (n : ℕ) : ⌊Real.sqrt (n : ℝ)⌋₊ = Nat.sqrt n :=
  Real.nat_floor_real_sqrt_eq_nat_sqrt

theorem accumulate_zero (values : List ℝ) : accumulate values 0.0 = values.sum := by
  rw [accumulate_eq_sum]; norm_num

theorem deviceLoop_length {σ : Type} (G : RandomSource σ) (mode : String) (n : ℕ)
    (baseEnergy baseLatency : ℝ) (k : ℕ) :
    ∀ (i : ℕ) (s : σ),
      (deviceLoop G mode n baseEnergy baseLatency i k s).1.1.length = k
      ∧ (deviceLoop G mode n baseEnergy baseLatency i k s).1.2.length = k := by
  induction k with
  | zero => intro i s; simp [deviceLoop]
  | succ k ih =>
    intro i s
    simp only [deviceLoop, List.length_cons]
    exact ⟨by rw [(ih _ _).1], by rw [(ih _ _).2]⟩

theorem calculateStdDev_eq_population (values : List ℝ) (h : values ≠ []) :
    calculateStdDev values = populationStdDev values := by
  have hE : values.isEmpty = false := by
    cases values with
    | nil => exact absurd rfl h
    | cons v vs => rfl
  simp only [calculateStdDev, hE, populationStdDev, accumulate_zero, squaredDeviations_eq_sum]
  simp

theorem populationStdDev_nonneg (values : List ℝ) : 0 ≤ populationStdDev values :=
  Real.sqrt_nonneg _

theorem populationStdDev_singleton (v : ℝ) : populationStdDev [v] = 0 := by
  simp [populationStdDev]

theorem runSimulation_energyStdDev {σ : Type} (G : RandomSource σ) (mode : String) (n : ℕ)
    (s : σ) :
    (runSimulation G mode n s).1.energyStdDev
      = populationStdDev (runSimulation G mode n s).1.individualEnergies := by
  simp only [runSimulation, populationStdDev, accumulate_zero, squaredDeviations_eq_sum,
    (deviceLoop_length G mode n _ _ n 0 _).1]

theorem runSimulation_latencyStdDev {σ : Type} (G : RandomSource σ) (mode : String) (n : ℕ)
    (s : σ) :
    (runSimulation G mode n s).1.latencyStdDev
      = populationStdDev (runSimulation G mode n s).1.individualLatencies := by
  simp only [runSimulation, populationStdDev, accumulate_zero, squaredDeviations_eq_sum,
    (deviceLoop_length G mode n _ _ n 0 _).2]

theorem deviceSample_formula {σ : Type} (G : RandomSource σ) (mode : String) (n : ℕ)
    (baseEnergy baseLatency : ℝ) (i : ℕ) (s : σ) :
    (deviceSample G mode n baseEnergy baseLatency i s).1.1
      = baseEnergy * (0.9 + (G.uniform s).1 * 0.2) * calculateDistanceEffect i n
          * (calculateInterferenceEffect G i n mode (G.uniform s).2).1
          * (0.95 + (G.normal (calculateInterferenceEffect G i n mode (G.uniform s).2).2).1 * 0.1)
    ∧ (deviceSample G mode n baseEnergy baseLatency i s).1.2
      = baseLatency * (0.9 + (G.uniform s).1 * 0.2) * calculateDistanceEffect i n
          * (1 + (n : ℝ) / 10000)
          * (0.95 + (G.normal (calculateInterferenceEffect G i n mode (G.uniform s).2).2).1 * 0.1)
    ∧ (deviceSample G mode n baseEnergy baseLatency i s).2
      = (G.normal (calculateInterferenceEffect G i n mode (G.uniform s).2).2).2 := by
  refine ⟨?_, ?_, rfl⟩
  · simp only [deviceSample, noiseFactor]
  · simp only [deviceSample, noiseFactor]; norm_num

theorem calculateDistanceEffect_ge_one (i n : ℕ) : 1 ≤ calculateDistanceEffect i n := by
  simp only [calculateDistanceEffect]
  have h := div_nonneg
    (Real.sqrt_nonneg ((((i % ⌊Real.sqrt (n : ℝ)⌋₊ : ℕ) : ℝ)) * (((i % ⌊Real.sqrt (n : ℝ)⌋₊ : ℕ) : ℝ))
      + (((i / ⌊Real.sqrt (n : ℝ)⌋₊ : ℕ) : ℝ)) * (((i / ⌊Real.sqrt (n : ℝ)⌋₊ : ℕ) : ℝ))))
    (Real.sqrt_nonneg (n : ℝ))
  norm_num
  positivity

/-- The interference coefficient of a mode (lines 51-57). -/
theorem calculateInterferenceEffect_eq {σ : Type} (G : RandomSource σ) (i n : ℕ)
    (mode : String) (s : σ) :
    (calculateInterferenceEffect G i n mode s).1
      = 1 + ((n : ℝ) / 1000
          * (if mode = "RAP" then (0.3 : ℝ) else if mode = "EDT" then 0.2 else 0.1))
          * (0.8 + (G.uniform s).1 * 0.4)
    ∧ (calculateInterferenceEffect G i n mode s).2 = (G.uniform s).2 := by
  refine ⟨?_, rfl⟩
  simp only [calculateInterferenceEffect]
  split_ifs <;> norm_num

theorem calculateInterferenceEffect_ge_one {σ : Type} (G : RandomSource σ) (i n : ℕ)
    (mode : String) (s : σ) (hu : 0 ≤ (G.uniform s).1) :
    1 ≤ (calculateInterferenceEffect G i n mode s).1 := by
  rw [(calculateInterferenceEffect_eq G i n mode s).1]
  have hn : (0 : ℝ) ≤ (n : ℝ) := Nat.cast_nonneg n
  have hc : (0 : ℝ) ≤ (if mode = "RAP" then (0.3 : ℝ) else if mode = "EDT" then 0.2 else 0.1) := by
    split_ifs <;> norm_num
  have hj : (0 : ℝ) ≤ 0.8 + (G.uniform s).1 * 0.4 := by linarith
  have : 0 ≤ ((n : ℝ) / 1000
      * (if mode = "RAP" then (0.3 : ℝ) else if mode = "EDT" then 0.2 else 0.1))
      * (0.8 + (G.uniform s).1 * 0.4) := by positivity
  linarith

theorem drawBaseEnergy_pos (mode : String) (u : ℝ) (hu : 0 ≤ u) : 0 < drawBaseEnergy mode u := by
  simp only [drawBaseEnergy]
  split_ifs <;> norm_num <;> linarith

theorem drawBaseLatency_pos (mode : String) (u : ℝ) (hu : 0 ≤ u) :
    0 < drawBaseLatency mode u := by
  simp only [drawBaseLatency]
  split_ifs <;> norm_num <;> linarith

theorem deviceSample_pos {σ : Type} (G : RandomSource σ)
    (hU : ∀ s, 0 ≤ (G.uniform s).1 ∧ (G.uniform s).1 < 1)
    (hN : ∀ s, -9.5 < (G.normal s).1) (mode : String) (n : ℕ) (baseEnergy baseLatency : ℝ)
    (hE : 0 < baseEnergy) (hL : 0 < baseLatency) (i : ℕ) (s : σ) :
    0 < (deviceSample G mode n baseEnergy baseLatency i s).1.1
    ∧ 0 < (deviceSample G mode n baseEnergy baseLatency i s).1.2 := by
  obtain ⟨e1, e2, -⟩ := deviceSample_formula G mode n baseEnergy baseLatency i s
  rw [e1, e2]
  have hv : (0 : ℝ) < 0.9 + (G.uniform s).1 * 0.2 := by linarith [(hU s).1]
  have hd : (0 : ℝ) < calculateDistanceEffect i n :=
    lt_of_lt_of_le one_pos (calculateDistanceEffect_ge_one i n)
  have hf : (0 : ℝ) < (calculateInterferenceEffect G i n mode (G.uniform s).2).1 :=
    lt_of_lt_of_le one_pos (calculateInterferenceEffect_ge_one G i n mode _ (hU _).1)
  have hz : (0 : ℝ)
      < 0.95 + (G.normal (calculateInterferenceEffect G i n mode (G.uniform s).2).2).1 * 0.1 := by
    have := hN (calculateInterferenceEffect G i n mode (G.uniform s).2).2
    norm_num at this ⊢
    linarith
  have hc : (0 : ℝ) < 1 + (n : ℝ) / 10000 := by positivity
  exact ⟨by positivity, by positivity⟩

theorem deviceLoop_pos {σ : Type} (G : RandomSource σ)
    (hU : ∀ s, 0 ≤ (G.uniform s).1 ∧ (G.uniform s).1 < 1)
    (hN : ∀ s, -9.5 < (G.normal s).1) (mode : String) (n : ℕ) (baseEnergy baseLatency : ℝ)
    (hE : 0 < baseEnergy) (hL : 0 < baseLatency) (k : ℕ) :
    ∀ (i : ℕ) (s : σ),
      (∀ e ∈ (deviceLoop G mode n baseEnergy baseLatency i k s).1.1, 0 < e)
      ∧ (∀ l ∈ (deviceLoop G mode n baseEnergy baseLatency i k s).1.2, 0 < l) := by
  induction k with
  | zero => intro i s; simp [deviceLoop]
  | succ k ih =>
    intro i s
    have hd := deviceSample_pos G hU hN mode n baseEnergy baseLatency hE hL i s
    simp only [deviceLoop, List.mem_cons]
    refine ⟨?_, ?_⟩
    · rintro e (rfl | he)
      · exact hd.1
      · exact (ih _ _).1 e he
    · rintro l (rfl | hl)
      · exact hd.2
      · exact (ih _ _).2 l hl

theorem sqrt_four : Real.sqrt (4 : ℝ) = 2 := by
  rw [show (4 : ℝ) = 2 ^ 2 by norm_num]
  exact Real.sqrt_sq (by norm_num)

theorem calculateInterferenceEffect_same {σ τ : Type} {G : RandomSource σ}
    {H : RandomSource τ} {R : σ → τ → Prop} (hS : SameDraws G H R) (i n : ℕ) (mode : String)
    (s : σ) (t : τ) (h : R s t) :
    (calculateInterferenceEffect G i n mode s).1 = (calculateInterferenceEffect H i n mode t).1
    ∧ R (calculateInterferenceEffect G i n mode s).2 (calculateInterferenceEffect H i n mode t).2 := by
  obtain ⟨hu, hR⟩ := hS.uniform_eq s t h
  refine ⟨?_, hR⟩
  simp only [calculateInterferenceEffect, hu]

theorem deviceSample_same {σ τ : Type} {G : RandomSource σ} {H : RandomSource τ}
    {R : σ → τ → Prop} (hS : SameDraws G H R) (mode : String) (n : ℕ)
    (baseEnergy baseLatency : ℝ) (i : ℕ) (s : σ) (t : τ) (h : R s t) :
    (deviceSample G mode n baseEnergy baseLatency i s).1
      = (deviceSample H mode n baseEnergy baseLatency i t).1
    ∧ R (deviceSample G mode n baseEnergy baseLatency i s).2
        (deviceSample H mode n baseEnergy baseLatency i t).2 := by
  obtain ⟨hv, hR1⟩ := hS.uniform_eq s t h
  obtain ⟨hf, hR2⟩ := calculateInterferenceEffect_same hS i n mode _ _ hR1
  obtain ⟨hz, hR3⟩ := hS.normal_eq _ _ hR2
  refine ⟨?_, hR3⟩
  simp only [deviceSample, hv, hf, hz]

theorem deviceLoop_same {σ τ : Type} {G : RandomSource σ} {H : RandomSource τ}
    {R : σ → τ → Prop} (hS : SameDraws G H R) (mode : String) (n : ℕ)
    (baseEnergy baseLatency : ℝ) (k : ℕ) :
    ∀ (i : ℕ) (s : σ) (t : τ), R s t →
      (deviceLoop G mode n baseEnergy baseLatency i k s).1
        = (deviceLoop H mode n baseEnergy baseLatency i k t).1
      ∧ R (deviceLoop G mode n baseEnergy baseLatency i k s).2
          (deviceLoop H mode n baseEnergy baseLatency i k t).2 := by
  induction k with
  | zero => intro i s t h; exact ⟨rfl, h⟩
  | succ k ih =>
    intro i s t h
    obtain ⟨hd, hR1⟩ := deviceSample_same hS mode n baseEnergy baseLatency i s t h
    obtain ⟨hl, hR2⟩ := ih (i + 1) _ _ hR1
    refine ⟨?_, hR2⟩
    simp only [deviceLoop, hd, hl]

theorem runSimulation_same {σ τ : Type} {G : RandomSource σ} {H : RandomSource τ}
    {R : σ → τ → Prop} (hS : SameDraws G H R) (mode : String) (n : ℕ) (s : σ) (t : τ)
    (h : R s t) :
    (runSimulation G mode n s).1 = (runSimulation H mode n t).1
    ∧ R (runSimulation G mode n s).2 (runSimulation H mode n t).2 := by
  obtain ⟨h1, hR1⟩ := hS.uniform_eq s t h
  obtain ⟨h2, hR2⟩ := hS.uniform_eq _ _ hR1
  obtain ⟨hl, hR3⟩ := deviceLoop_same hS mode n (drawBaseEnergy mode (H.uniform t).1)
    (drawBaseLatency mode (H.uniform (H.uniform t).2).1) n 0 _ _ hR2
  obtain ⟨hj, hR4⟩ := hS.uniform_eq _ _ hR3
  refine ⟨?_, ?_⟩
  · simp only [runSimulation, h1, h2, hl, hj]
  · simp only [runSimulation, h1, h2]
    exact hR4

theorem repeatSimulation_same {σ τ : Type} {G : RandomSource σ} {H : RandomSource τ}
    {R : σ → τ → Prop} (hS : SameDraws G H R) (mode : String) (n k : ℕ) :
    ∀ (s : σ) (t : τ), R s t →
      (repeatSimulation G mode n k s).1 = (repeatSimulation H mode n k t).1
      ∧ R (repeatSimulation G mode n k s).2 (repeatSimulation H mode n k t).2 := by
  induction k with
  | zero => intro s t h; exact ⟨rfl, h⟩
  | succ k ih =>
    intro s t h
    obtain ⟨hr, hR1⟩ := runSimulation_same hS mode n s t h
    obtain ⟨hl, hR2⟩ := ih _ _ hR1
    refine ⟨?_, hR2⟩
    simp only [repeatSimulation, hr, hl]

theorem runCounts_same {σ τ : Type} {G : RandomSource σ} {H : RandomSource τ}
    {R : σ → τ → Prop} (hS : SameDraws G H R) (mode : String) (cs : List ℕ) :
    ∀ (s : σ) (t : τ), R s t →
      (runCounts G mode cs s).1 = (runCounts H mode cs t).1
      ∧ R (runCounts G mode cs s).2 (runCounts H mode cs t).2 := by
  induction cs with
  | nil => intro s t h; exact ⟨rfl, h⟩
  | cons n rest ih =>
    intro s t h
    obtain ⟨hr, hR1⟩ := repeatSimulation_same hS mode n 3 s t h
    obtain ⟨hl, hR2⟩ := ih _ _ hR1
    refine ⟨?_, hR2⟩
    simp only [runCounts, hr, hl]

theorem runModes_same {σ τ : Type} {G : RandomSource σ} {H : RandomSource τ}
    {R : σ → τ → Prop} (hS : SameDraws G H R) (cs : List ℕ) (ms : List String) :
    ∀ (s : σ) (t : τ), R s t →
      (runModes G cs ms s).1 = (runModes H cs ms t).1
      ∧ R (runModes G cs ms s).2 (runModes H cs ms t).2 := by
  induction ms with
  | nil => intro s t h; exact ⟨rfl, h⟩
  | cons mode rest ih =>
    intro s t h
    obtain ⟨hr, hR1⟩ := runCounts_same hS mode cs s t h
    obtain ⟨hl, hR2⟩ := ih _ _ hR1
    refine ⟨?_, hR2⟩
    simp only [runModes, hr, hl]

theorem sameDraws_refl {σ : Type} (G : RandomSource σ) :
    SameDraws G G (fun s t => s = t) :=
  ⟨fun s t h => by subst h; exact ⟨rfl, rfl⟩, fun s t h => by subst h; exact ⟨rfl, rfl⟩⟩

theorem caching_sameDraws :
    SameDraws cachingEngine.source cachingEngine.source
      (fun s t => (s.2 = none ∨ s.2 = some 0) ∧ (t.2 = none ∨ t.2 = some 0)) := by
  constructor
  · rintro ⟨e, d⟩ ⟨e', d'⟩ ⟨h1, h2⟩
    exact ⟨rfl, h1, h2⟩
  · rintro ⟨e, d⟩ ⟨e', d'⟩ ⟨h1, h2⟩
    rcases h1 with h1 | h1 <;> rcases h2 with h2 | h2 <;> simp only at h1 h2 <;> subst h1 <;>
      subst h2 <;> simp [Engine.source, cachingEngine]

theorem averageResults_repeat_three {σ : Type} (G : RandomSource σ) (mode : String) (n : ℕ)
    (s : σ) :
    (averageResults mode n (repeatSimulation G mode n 3 s).1).avgEnergy
      = ((runSimulation G mode n s).1.avgEnergy
          + (runSimulation G mode n (runSimulation G mode n s).2).1.avgEnergy
          + (runSimulation G mode n
              (runSimulation G mode n (runSimulation G mode n s).2).2).1.avgEnergy) / 3 := by
  simp only [averageResults, repeatSimulation, List.foldl_cons, List.foldl_nil, List.length_cons,
    List.length_nil]
  norm_num

theorem deviceLoop_step {σ : Type} (G : RandomSource σ) (mode : String) (n : ℕ)
    (baseEnergy baseLatency : ℝ) (i i' k k' : ℕ) (s : σ) (hi : i' = i + 1) (hk : k' = k + 1) :
    deviceLoop G mode n baseEnergy baseLatency i k' s
      = (((deviceSample G mode n baseEnergy baseLatency i s).1.1
            :: (deviceLoop G mode n baseEnergy baseLatency i' k
                (deviceSample G mode n baseEnergy baseLatency i s).2).1.1,
          (deviceSample G mode n baseEnergy baseLatency i s).1.2
            :: (deviceLoop G mode n baseEnergy baseLatency i' k
                (deviceSample G mode n baseEnergy baseLatency i s).2).1.2),
         (deviceLoop G mode n baseEnergy baseLatency i' k
            (deviceSample G mode n baseEnergy baseLatency i s).2).2) := by
  subst hi
  subst hk
  rfl

theorem caching_first_trial (d : Option ℝ) :
    (runSimulation cachingEngine.source "RAP" 100 (7, d)).1.avgEnergy
      = ((deviceSample cachingEngine.source "RAP" 100 (drawBaseEnergy "RAP" 0)
            (drawBaseLatency "RAP" 0) 0 (9, d)).1.1
          + (deviceLoop cachingEngine.source "RAP" 100 (drawBaseEnergy "RAP" 0)
              (drawBaseLatency "RAP" 0) 1 99
              (deviceSample cachingEngine.source "RAP" 100 (drawBaseEnergy "RAP" 0)
                (drawBaseLatency "RAP" 0) 0 (9, d)).2).1.1.sum) / 100
    ∧ (runSimulation cachingEngine.source "RAP" 100 (7, d)).2.2
      = (deviceLoop cachingEngine.source "RAP" 100 (drawBaseEnergy "RAP" 0)
              (drawBaseLatency "RAP" 0) 1 99
              (deviceSample cachingEngine.source "RAP" 100 (drawBaseEnergy "RAP" 0)
                (drawBaseLatency "RAP" 0) 0 (9, d)).2).2.2 := by
  have hloop := deviceLoop_step cachingEngine.source "RAP" 100 (drawBaseEnergy "RAP" 0)
    (drawBaseLatency "RAP" 0) 0 1 99 100 (9, d) rfl rfl
  have hu1 : cachingEngine.source.uniform (7, d) = (0, (8, d)) := rfl
  have hu2 : cachingEngine.source.uniform (8, d) = (0, (9, d)) := rfl
  refine ⟨?_, ?_⟩
  · simp only [runSimulation, accumulate_zero, hu1, hu2, hloop, List.sum_cons]
    norm_num
  · have hkeep : ∀ t : ℕ × Option ℝ, (cachingEngine.source.uniform t).2.2 = t.2 :=
      fun _ => rfl
    simp only [runSimulation, hu1, hu2, hloop, hkeep]

theorem caching_first_device (d : Option ℝ) :
    (deviceSample cachingEngine.source "RAP" 100 (drawBaseEnergy "RAP" 0)
        (drawBaseLatency "RAP" 0) 0 (9, d)).1.1
      = drawBaseEnergy "RAP" 0 * 0.9 * calculateDistanceEffect 0 100
          * (1 + (100 : ℝ) / 1000 * 0.3 * 0.8)
          * (0.95 + (cachingEngine.normal (11, d)).1 * 0.1)
    ∧ (deviceSample cachingEngine.source "RAP" 100 (drawBaseEnergy "RAP" 0)
        (drawBaseLatency "RAP" 0) 0 (9, d)).2 = (cachingEngine.normal (11, d)).2 := by
  have hu1 : cachingEngine.source.uniform (9, d) = (0, (10, d)) := rfl
  have hu2 : cachingEngine.source.uniform (10, d) = (0, (11, d)) := rfl
  have hn : cachingEngine.source.normal (11, d) = cachingEngine.normal (11, d) := rfl
  refine ⟨?_, ?_⟩
  · simp only [deviceSample, calculateInterferenceEffect, noiseFactor, hu1, hu2, hn]
    norm_num
  · simp only [deviceSample, calculateInterferenceEffect, hu1, hu2, hn]

/-! ## Positivity of the measurements (C1) -/

/-- C1, refuted as stated: with every uniform draw `0` and every normal draw `-10`, the one device
of a `"PUR"` trial of population `1` is recorded with a negative energy and a negative latency. -/
theorem runSimulation_negative_measurement :
    (∀ s, 0 ≤ ((constantSource 0 (-10)).uniform s).1 ∧ ((constantSource 0 (-10)).uniform s).1 < 1)
    ∧ (∃ e ∈ (runSimulation (constantSource 0 (-10)) "PUR" 1 ()).1.individualEnergies, e < 0)
    ∧ (∃ l ∈ (runSimulation (constantSource 0 (-10)) "PUR" 1 ()).1.individualLatencies,
        l < 0) := by
  refine ⟨fun s => by simp [constantSource], ?_, ?_⟩
  · simp [runSimulation, deviceLoop, deviceSample, noiseFactor, calculateDistanceEffect,
      calculateInterferenceEffect, drawBaseEnergy, drawBaseLatency, constantSource]
    norm_num
  · simp [runSimulation, deviceLoop, deviceSample, noiseFactor, calculateDistanceEffect,
      calculateInterferenceEffect, drawBaseEnergy, drawBaseLatency, constantSource]
    norm_num

/-- C1, amended: for every mode, every `n ≥ 1` and every random source whose uniform draws lie in
`[0, 1)` and whose normal draws are all greater than `-9.5`, `runSimulation` records exactly `n`
energies and `n` latencies and every one of them is strictly positive. -/
theorem runSimulation_positive {σ : Type} (G : RandomSource σ)
    (hU : ∀ s, 0 ≤ (G.uniform s).1 ∧ (G.uniform s).1 < 1)
    (hN : ∀ s, -9.5 < (G.normal s).1) (mode : String) (n : ℕ) (_hn : 1 ≤ n) (s : σ) :
    (runSimulation G mode n s).1.individualEnergies.length = n
    ∧ (runSimulation G mode n s).1.individualLatencies.length = n
    ∧ (∀ e ∈ (runSimulation G mode n s).1.individualEnergies, 0 < e)
    ∧ (∀ l ∈ (runSimulation G mode n s).1.individualLatencies, 0 < l) := by
  have hp := deviceLoop_pos G hU hN mode n (drawBaseEnergy mode (G.uniform s).1)
    (drawBaseLatency mode (G.uniform (G.uniform s).2).1)
    (drawBaseEnergy_pos mode _ (hU _).1) (drawBaseLatency_pos mode _ (hU _).1) n 0
    (G.uniform (G.uniform s).2).2
  have hl := deviceLoop_length G mode n (drawBaseEnergy mode (G.uniform s).1)
    (drawBaseLatency mode (G.uniform (G.uniform s).2).1) n 0 (G.uniform (G.uniform s).2).2
  exact ⟨hl.1, hl.2, hp.1, hp.2⟩

theorem runSimulation_positive_witness :
    (∀ e ∈ (runSimulation (constantSource 0 0) "RAP" 3 ()).1.individualEnergies, 0 < e)
    ∧ (∀ l ∈ (runSimulation (constantSource 0 0) "RAP" 3 ()).1.individualLatencies, 0 < l) :=
  (runSimulation_positive (constantSource 0 0) (fun s => by simp [constantSource])
    (fun s => by simp [constantSource]; norm_num) "RAP" 3 (by decide) ()).2.2

/-! ## A population of zero (C2) -/

/-- C2, refuted as stated: called with `numDevices = 0` the code does not reject before sampling;
it makes three draws and returns a result, which is not the specification's rejection. -/
theorem runSimulation_zero_not_rejected :
    (runSimulation countingSource "RAP" 0 0).2 = 3
    ∧ specTrialRunner countingSource "RAP" 0 0
        ≠ Except.ok (runSimulation countingSource "RAP" 0 0) := by
  refine ⟨?_, ?_⟩
  · simp [runSimulation, deviceLoop, countingSource]
  · simp [specTrialRunner]

/-- C2, amended: called with `numDevices = 0`, `runSimulation` rejects nothing: it makes the two
uniform draws of the base values and the uniform draw of the battery jitter, no normal draw, and
returns a result for population `0` with no measurement at all. -/
theorem runSimulation_empty_population {σ : Type} (G : RandomSource σ) (mode : String) (s : σ) :
    (runSimulation G mode 0 s).1.mode = mode
    ∧ (runSimulation G mode 0 s).1.numDevices = 0
    ∧ (runSimulation G mode 0 s).1.individualEnergies = []
    ∧ (runSimulation G mode 0 s).1.individualLatencies = []
    ∧ (runSimulation G mode 0 s).2 = (G.uniform (G.uniform (G.uniform s).2).2).2 := by
  simp [runSimulation, deviceLoop]

/-! ## Standard deviations of a trial (C3) -/

/-- C3: for `n ≥ 1` the trial has `n` energies and `n` latencies, its means are their sums
divided by `n`, and `energyStdDev` and `latencyStdDev` are the population standard deviations of
those measurements (deviations from the trial mean, divided by `n`); both are `≥ 0`, and both are
`0` when `n = 1`. -/
theorem runSimulation_stdDev {σ : Type} (G : RandomSource σ) (mode : String) (n : ℕ) (s : σ)
    (_hn : 1 ≤ n) :
    (runSimulation G mode n s).1.individualEnergies.length = n
    ∧ (runSimulation G mode n s).1.individualLatencies.length = n
    ∧ (runSimulation G mode n s).1.avgEnergy
        = (runSimulation G mode n s).1.individualEnergies.sum / (n : ℝ)
    ∧ (runSimulation G mode n s).1.avgLatency
        = (runSimulation G mode n s).1.individualLatencies.sum / (n : ℝ)
    ∧ (runSimulation G mode n s).1.energyStdDev
        = Real.sqrt
            (((runSimulation G mode n s).1.individualEnergies.map
                (fun e => (e - (runSimulation G mode n s).1.avgEnergy) ^ 2)).sum / (n : ℝ))
    ∧ (runSimulation G mode n s).1.latencyStdDev
        = Real.sqrt
            (((runSimulation G mode n s).1.individualLatencies.map
                (fun l => (l - (runSimulation G mode n s).1.avgLatency) ^ 2)).sum / (n : ℝ))
    ∧ (runSimulation G mode n s).1.energyStdDev
        = populationStdDev (runSimulation G mode n s).1.individualEnergies
    ∧ (runSimulation G mode n s).1.latencyStdDev
        = populationStdDev (runSimulation G mode n s).1.individualLatencies
    ∧ 0 ≤ (runSimulation G mode n s).1.energyStdDev
    ∧ 0 ≤ (runSimulation G mode n s).1.latencyStdDev
    ∧ (n = 1 → (runSimulation G mode n s).1.energyStdDev = 0
        ∧ (runSimulation G mode n s).1.latencyStdDev = 0) := by
  have hLE : (runSimulation G mode n s).1.individualEnergies.length = n := by
    simp only [runSimulation, (deviceLoop_length G mode n _ _ n 0 _).1]
  have hLL : (runSimulation G mode n s).1.individualLatencies.length = n := by
    simp only [runSimulation, (deviceLoop_length G mode n _ _ n 0 _).2]
  refine ⟨hLE, hLL, ?_, ?_, ?_, ?_, runSimulation_energyStdDev G mode n s,
    runSimulation_latencyStdDev G mode n s, ?_, ?_, ?_⟩
  · simp only [runSimulation, accumulate_zero]
  · simp only [runSimulation, accumulate_zero]
  · simp only [runSimulation, accumulate_zero, squaredDeviations_eq_sum]
  · simp only [runSimulation, accumulate_zero, squaredDeviations_eq_sum]
  · rw [runSimulation_energyStdDev]; exact populationStdDev_nonneg _
  · rw [runSimulation_latencyStdDev]; exact populationStdDev_nonneg _
  · intro h1
    rw [runSimulation_energyStdDev, runSimulation_latencyStdDev]
    subst h1
    obtain ⟨e, he⟩ := List.length_eq_one.mp hLE
    obtain ⟨l, hl⟩ := List.length_eq_one.mp hLL
    rw [he, hl]
    exact ⟨populationStdDev_singleton e, populationStdDev_singleton l⟩

theorem runSimulation_stdDev_witness :
    (1 ≤ 1)
    ∧ (runSimulation (constantSource 0 0) "EDT" 1 ()).1.energyStdDev = 0
    ∧ (runSimulation (constantSource 0 0) "EDT" 1 ()).1.latencyStdDev = 0 :=
  ⟨le_refl 1,
   (runSimulation_stdDev (constantSource 0 0) "EDT" 1 () (le_refl 1)).2.2.2.2.2.2.2.2.2.2 rfl⟩

/-! ## Battery life of an aggregate (C4, C5) -/

/-- C4: the aggregate of three trial results has the arithmetic means of their `avgEnergy` and
`avgLatency`, its `batteryLife` is `18000 / ((avgEnergy * 24) * 365)` of that averaged energy, it
is the same whatever the `batteryLife` of the three trials is, and it is not in general their
average. The aggregate pushed by the loop over the population sizes is the aggregate of the three
successive trials. -/
theorem averageResults_three {σ : Type} (G : RandomSource σ)
    (mode : String) (n : ℕ) (rest : List ℕ) (s : σ) (r1 r2 r3 : SimulationResult) :
    (averageResults mode n [r1, r2, r3]).avgEnergy
        = (r1.avgEnergy + r2.avgEnergy + r3.avgEnergy) / 3
    ∧ (averageResults mode n [r1, r2, r3]).avgLatency
        = (r1.avgLatency + r2.avgLatency + r3.avgLatency) / 3
    ∧ (averageResults mode n [r1, r2, r3]).batteryLife
        = 18000 / ((((r1.avgEnergy + r2.avgEnergy + r3.avgEnergy) / 3) * 24) * 365)
    ∧ (∀ b1 b2 b3 : ℝ,
        (averageResults mode n
            [{ r1 with batteryLife := b1 }, { r2 with batteryLife := b2 },
             { r3 with batteryLife := b3 }]).batteryLife
          = (averageResults mode n [r1, r2, r3]).batteryLife)
    ∧ (averageResults mode n
          [trialOf mode 1 1 0, trialOf mode 1 1 0, trialOf mode 1 1 0]).batteryLife
        ≠ ((trialOf mode 1 1 0).batteryLife + (trialOf mode 1 1 0).batteryLife
            + (trialOf mode 1 1 0).batteryLife) / 3
    ∧ (runCounts G mode (n :: rest) s).1.head?
        = some (averageResults mode n
            [(runSimulation G mode n s).1,
             (runSimulation G mode n (runSimulation G mode n s).2).1,
             (runSimulation G mode n
                (runSimulation G mode n (runSimulation G mode n s).2).2).1]) := by
  refine ⟨?_, ?_, ?_, ?_, ?_, ?_⟩
  · simp only [averageResults, List.foldl_cons, List.foldl_nil, List.length_cons,
      List.length_nil]
    norm_num
  · simp only [averageResults, List.foldl_cons, List.foldl_nil, List.length_cons,
      List.length_nil]
    norm_num
  · simp only [averageResults, aggregateBatteryLife, List.foldl_cons, List.foldl_nil,
      List.length_cons, List.length_nil]
    norm_num
  · intro b1 b2 b3
    simp only [averageResults, List.foldl_cons, List.foldl_nil, List.length_cons,
      List.length_nil]
  · simp only [averageResults, aggregateBatteryLife, trialOf, List.foldl_cons, List.foldl_nil,
      List.length_cons, List.length_nil]
    norm_num
  · simp only [runCounts, repeatSimulation, List.head?_cons]

/-- C7: when there is a `"RAP"` and a `"PUR"` aggregate, the half-width reported for each of the
two strategies is `1.96 * s / sqrt k`, with `s` the `calculateStdDev` of its `k` aggregate
energies, which is their population standard deviation; and for a fixed `s > 0` the half-width is
strictly decreasing in the count: `1.96 * s / sqrt k2 < 1.96 * s / sqrt k1` for
`1 ≤ k1 < k2`. -/
theorem confidenceHalfWidth_spec (results : List AggregateResult)
    (hR : rapEnergies results ≠ []) (hP : purEnergies results ≠ [])
    (sd : ℝ) (hs : 0 < sd) (k1 k2 : ℕ) (hk1 : 1 ≤ k1) (hk : k1 < k2) :
    (performStatisticalAnalysis results).map (fun rep => rep.rapHalfWidth)
        = some (1.96 * calculateStdDev (rapEnergies results)
            / Real.sqrt ((rapEnergies results).length : ℝ))
    ∧ (performStatisticalAnalysis results).map (fun rep => rep.purHalfWidth)
        = some (1.96 * calculateStdDev (purEnergies results)
            / Real.sqrt ((purEnergies results).length : ℝ))
    ∧ calculateStdDev (rapEnergies results) = populationStdDev (rapEnergies results)
    ∧ calculateStdDev (purEnergies results) = populationStdDev (purEnergies results)
    ∧ confidenceHalfWidth sd k2 < confidenceHalfWidth sd k1
    ∧ 1.96 * sd / Real.sqrt (k2 : ℝ) < 1.96 * sd / Real.sqrt (k1 : ℝ) := by
  have hRe : (rapEnergies results).isEmpty = false := by
    cases h : rapEnergies results with
    | nil => exact absurd h hR
    | cons v vs => rfl
  have hPe : (purEnergies results).isEmpty = false := by
    cases h : purEnergies results with
    | nil => exact absurd h hP
    | cons v vs => rfl
  have hk1r : (0 : ℝ) < (k1 : ℝ) := by exact_mod_cast hk1
  have hlt : Real.sqrt (k1 : ℝ) < Real.sqrt (k2 : ℝ) :=
    Real.sqrt_lt_sqrt (le_of_lt hk1r) (by exact_mod_cast hk)
  have key : 1.96 * sd / Real.sqrt (k2 : ℝ) < 1.96 * sd / Real.sqrt (k1 : ℝ) :=
    div_lt_div_of_pos_left (by positivity) (Real.sqrt_pos.mpr hk1r) hlt
  refine ⟨?_, ?_, calculateStdDev_eq_population _ hR, calculateStdDev_eq_population _ hP,
    key, key⟩
  · simp [performStatisticalAnalysis, hRe, hPe, confidenceHalfWidth]
  · simp [performStatisticalAnalysis, hRe, hPe, confidenceHalfWidth]

theorem confidenceHalfWidth_spec_witness :
    confidenceHalfWidth 1 4 < confidenceHalfWidth 1 1 :=
  (confidenceHalfWidth_spec [aggregateOf "RAP" 5 500, aggregateOf "PUR" 2 100]
    (by simp [rapEnergies, aggregateOf]) (by simp [purEnergies, aggregateOf])
    1 (by norm_num) 1 4 (by decide) (by decide)).2.2.2.2.1

/-! ## Determinism under the seed (C8) -/

/-- C8, refuted as stated: two runs with the same seed `7` whose `normal_dist` holds no saved
value in one and the saved value `1` in the other produce different lists of aggregate results:
`rng.seed` does not reset the distribution, so the results are not a function of the seed
alone. -/
theorem runMultipleSimulations_saved_value_matters :
    runMultipleSimulations cachingEngine 7 (0, none)
      ≠ runMultipleSimulations cachingEngine 7 (0, some 1) := by
  intro h
  have hA : (runMultipleSimulations cachingEngine 7 (0, none)).head?
      = some (averageResults "RAP" 100
          (repeatSimulation cachingEngine.source "RAP" 100 3 (7, none)).1) := rfl
  have hB : (runMultipleSimulations cachingEngine 7 (0, some 1)).head?
      = some (averageResults "RAP" 100
          (repeatSimulation cachingEngine.source "RAP" 100 3 (7, some 1)).1) := rfl
  rw [h, hB] at hA
  have hE := congrArg AggregateResult.avgEnergy (Option.some.inj hA)
  rw [averageResults_repeat_three, averageResults_repeat_three] at hE
  obtain ⟨fA, sA⟩ := caching_first_trial none
  obtain ⟨fB, sB⟩ := caching_first_trial (some 1)
  obtain ⟨dA, nA⟩ := caching_first_device none
  obtain ⟨dB, nB⟩ := caching_first_device (some 1)
  have hrel0 : (fun s t : ℕ × Option ℝ => (s.2 = none ∨ s.2 = some 0)
      ∧ (t.2 = none ∨ t.2 = some 0)) (cachingEngine.normal (11, some 1)).2
        (cachingEngine.normal (11, none)).2 := ⟨Or.inl rfl, Or.inr rfl⟩
  rw [nA] at fA sA
  rw [nB] at fB sB
  obtain ⟨hrest, hrel1⟩ := deviceLoop_same caching_sameDraws "RAP" 100
    (drawBaseEnergy "RAP" 0) (drawBaseLatency "RAP" 0) 99 1 _ _ hrel0
  have hrel2 : (fun s t : ℕ × Option ℝ => (s.2 = none ∨ s.2 = some 0)
      ∧ (t.2 = none ∨ t.2 = some 0))
      (runSimulation cachingEngine.source "RAP" 100 (7, some 1)).2
      (runSimulation cachingEngine.source "RAP" 100 (7, none)).2 := by
    show (_ ∨ _) ∧ (_ ∨ _)
    rw [sA, sB]
    exact hrel1
  obtain ⟨h2, hrel3⟩ := runSimulation_same caching_sameDraws "RAP" 100 _ _ hrel2
  obtain ⟨h3, -⟩ := runSimulation_same caching_sameDraws "RAP" 100 _ _ hrel3
  rw [h2, h3, fA, fB, hrest, dA, dB] at hE
  have hK : 0 < drawBaseEnergy "RAP" 0 * 0.9 * calculateDistanceEffect 0 100
      * (1 + (100 : ℝ) / 1000 * 0.3 * 0.8) := by
    have h1 := drawBaseEnergy_pos "RAP" 0 (le_refl 0)
    have h2 : (0 : ℝ) < calculateDistanceEffect 0 100 :=
      lt_of_lt_of_le one_pos (calculateDistanceEffect_ge_one 0 100)
    positivity
  have zA : (cachingEngine.normal (11, none)).1 = 0 := rfl
  have zB : (cachingEngine.normal (11, some 1)).1 = 1 := rfl
  rw [zA, zB] at hE
  nlinarith

/-- C8, amended: two runs of `runMultipleSimulations` whose generators deliver the same draws
after seeding produce the same list of aggregate results, compared on the assigned members
`mode`, `numDevices`, `avgEnergy`, `avgLatency` and `batteryLife`; in particular the list is a
function of the seed (the low 32 bits of the clock reading) and of the state `normal_dist` is
in at the call, whatever state the engine was in before it was seeded. -/
theorem runMultipleSimulations_same_draws {ε δ ε' δ' : Type} (E : Engine ε δ)
    (E' : Engine ε' δ') (R : ε × δ → ε' × δ' → Prop) (hS : SameDraws E.source E'.source R)
    (clock clock' : ℕ) (s : ε × δ) (s' : ε' × δ')
    (h0 : R (E.seedState (clock % 2 ^ 32), s.2) (E'.seedState (clock' % 2 ^ 32), s'.2)) :
    runMultipleSimulations E clock s = runMultipleSimulations E' clock' s'
    ∧ (∀ (c1 c2 : ℕ) (e1 e2 : ε) (d : δ), c1 % 2 ^ 32 = c2 % 2 ^ 32 →
        runMultipleSimulations E c1 (e1, d) = runMultipleSimulations E c2 (e2, d)) := by
  refine ⟨(runModes_same hS deviceCounts modes _ _ h0).1, ?_⟩
  intro c1 c2 e1 e2 d hc
  refine (runModes_same (sameDraws_refl E.source) deviceCounts modes _ _ ?_).1
  show (E.seedState (c1 % 2 ^ 32), d) = (E.seedState (c2 % 2 ^ 32), d)
  rw [hc]

theorem runMultipleSimulations_same_draws_witness :
    runMultipleSimulations
        (streamEngine (fun v i => (((v + i) % 10 : ℕ) : ℝ) / 10)
          (fun v j => (((v + j) % 3 : ℕ) : ℝ) - 1)) 7 ((0, 0, 0), ())
      = runMultipleSimulations
        (streamEngine (fun v i => (((v + i) % 10 : ℕ) : ℝ) / 10)
          (fun v j => (((v + j) % 3 : ℕ) : ℝ) - 1)) (7 + 2 ^ 32) ((5, 3, 1), ()) :=
  (runMultipleSimulations_same_draws _ _ (fun s t => s = t) (sameDraws_refl _) 7 (7 + 2 ^ 32)
    ((0, 0, 0), ()) ((5, 3, 1), ()) (by simp [streamEngine])).1

/-! ## The noise multiplier (C9) -/

/-- C9, refuted as stated: on the normal draw `z = 0` the noise multiplier of `runSimulation` is
not `1 + z * 0.1`, and the energy recorded for the device of a one-device trial is not the product
of the other four factors. -/
theorem noise_at_zero_is_not_one :
    noiseFactor 0 ≠ 1 + 0 * 0.1 ∧
    (deviceSample (constantSource 0 0) "PUR" 1 2 100 0 ()).1.1
      ≠ 2 * (0.9 + 0 * 0.2) * calculateDistanceEffect 0 1
          * (calculateInterferenceEffect (constantSource 0 0) 0 1 "PUR" ()).1 * (1 + 0 * 0.1) := by
  constructor
  · unfold noiseFactor; norm_num
  · simp [deviceSample, noiseFactor, calculateDistanceEffect, calculateInterferenceEffect,
      constantSource]
    norm_num

/-- C9, amended: for every normal draw `z` the noise multiplier applied to the energy and to the
latency of a device is `0.95 + z * 0.1`; a draw of `0` scales both products by `0.95`. -/
theorem deviceSample_noise {σ : Type} (G : RandomSource σ) (mode : String) (n : ℕ)
    (baseEnergy baseLatency : ℝ) (i : ℕ) (s : σ) :
    (deviceSample G mode n baseEnergy baseLatency i s).1.1
      = baseEnergy * (0.9 + (G.uniform s).1 * 0.2) * calculateDistanceEffect i n
          * (calculateInterferenceEffect G i n mode (G.uniform s).2).1
          * (0.95 + (G.normal (calculateInterferenceEffect G i n mode (G.uniform s).2).2).1 * 0.1)
    ∧ (deviceSample G mode n baseEnergy baseLatency i s).1.2
      = baseLatency * (0.9 + (G.uniform s).1 * 0.2) * calculateDistanceEffect i n
          * (1 + (n : ℝ) / 10000)
          * (0.95 + (G.normal (calculateInterferenceEffect G i n mode (G.uniform s).2).2).1 * 0.1)
    ∧ noiseFactor 0 = 0.95 := by
  refine ⟨?_, ?_, ?_⟩
  · simp only [deviceSample, noiseFactor]
  · simp only [deviceSample, noiseFactor]; norm_num
  · unfold noiseFactor; norm_num

/-! ## The distance factor (C10) -/

/-- C10, refuted as stated: for device `1` of a population of `4` the code returns `1.25`, which
is not the factor computed with the grid diagonal `√2 * √4`. -/
theorem distanceEffect_not_over_diagonal :
    calculateDistanceEffect 1 4 = 1.25 ∧ calculateDistanceEffect 1 4 ≠ specDistanceFactor 1 4 := by
  have h : calculateDistanceEffect 1 4 = 1.25 := by
    have h2 : ⌊(2 : ℝ)⌋₊ = 2 := by simp
    simp only [calculateDistanceEffect, Nat.cast_ofNat, sqrt_four, h2]
    norm_num
  refine ⟨h, ?_⟩
  rw [h]
  have hs : Nat.sqrt 4 = 2 := by
    have := Nat.sqrt_eq 2
    simpa using this
  simp only [specDistanceFactor, hs, Nat.cast_ofNat, sqrt_four]
  norm_num
  intro hEq
  have h2 : Real.sqrt 2 ^ 2 = 2 := Real.sq_sqrt (by norm_num)
  have hpos : 0 < Real.sqrt 2 := Real.sqrt_pos.mpr (by norm_num)
  field_simp at hEq
  nlinarith [hEq, h2, hpos]

/-- C10, amended: for `n ≥ 1` and `0 ≤ i < n`, `calculateDistanceEffect i n` is
`1 + (d / √n) * 0.5`, where `d` is the euclidean distance from the origin of the cell
`x = i mod ⌊√n⌋`, `y = i div ⌊√n⌋`: the divisor is the side `√n` of the grid. -/
theorem calculateDistanceEffect_eq (i n : ℕ) (_hn : 1 ≤ n) (_hi : i < n) :
    calculateDistanceEffect i n
      = 1 + (Real.sqrt ((((i % Nat.sqrt n : ℕ) : ℝ)) ^ 2 + (((i / Nat.sqrt n : ℕ) : ℝ)) ^ 2)
              / Real.sqrt (n : ℝ)) * 0.5 := by
  simp only [calculateDistanceEffect, floor_sqrt_eq]
  norm_num [pow_two]

theorem calculateDistanceEffect_eq_witness :
    calculateDistanceEffect 5 9
      = 1 + (Real.sqrt ((((5 % Nat.sqrt 9 : ℕ) : ℝ)) ^ 2 + (((5 / Nat.sqrt 9 : ℕ) : ℝ)) ^ 2)
              / Real.sqrt ((9 : ℕ) : ℝ)) * 0.5 :=
  calculateDistanceEffect_eq 5 9 (by decide) (by decide)

/-! ## The grid cell of a device (C11) -/

/-- C11, refuted as stated: device `2` of a population of `3` is given the row `y = 2`, which is
not below `√3`; the divisor `⌊√3⌋` is `1`. -/
theorem cellY_outside_grid :
    ⌊Real.sqrt ((3 : ℕ) : ℝ)⌋₊ = 1 ∧ cellY 2 3 = 2 ∧ ¬ (cellY 2 3 < Real.sqrt ((3 : ℕ) : ℝ)) := by
  have hs : Nat.sqrt 3 = 1 := (Nat.eq_sqrt.mpr ⟨by norm_num, by norm_num⟩).symm
  have hf : ⌊Real.sqrt ((3 : ℕ) : ℝ)⌋₊ = 1 := by rw [floor_sqrt_eq, hs]
  have hy : cellY 2 3 = 2 := by
    simp only [cellY, hf]
    norm_num
  refine ⟨hf, hy, ?_⟩
  rw [hy, not_lt]
  have h : Real.sqrt ((3 : ℕ) : ℝ) < 2 := by
    rw [Real.sqrt_lt' (by norm_num)]
    norm_num
  exact le_of_lt h

/-- C11, amended: for `n ≥ 1` and `0 ≤ i < n` the divisor `⌊√n⌋` is at least `1`, the cell of
device `i` is the pair `x = i mod ⌊√n⌋`, `y = i div ⌊√n⌋` that `calculateDistanceEffect`
measures, the column satisfies `0 ≤ x < √n`, and the row satisfies `0 ≤ y ≤ ⌊√n⌋ + 1`, with
`y < √n` when `n` is a perfect square. -/
theorem cell_bounds (i n : ℕ) (hn : 1 ≤ n) (hi : i < n) :
    1 ≤ ⌊Real.sqrt (n : ℝ)⌋₊
    ∧ cellX i n = ((i % Nat.sqrt n : ℕ) : ℝ)
    ∧ cellY i n = ((i / Nat.sqrt n : ℕ) : ℝ)
    ∧ calculateDistanceEffect i n
        = 1 + (Real.sqrt (cellX i n * cellX i n + cellY i n * cellY i n)
                / Real.sqrt (n : ℝ)) * 0.5
    ∧ 0 ≤ cellX i n ∧ cellX i n < Real.sqrt (n : ℝ)
    ∧ 0 ≤ cellY i n ∧ cellY i n ≤ ((⌊Real.sqrt (n : ℝ)⌋₊ : ℕ) : ℝ) + 1
    ∧ ((∃ g : ℕ, n = g * g) → cellY i n < Real.sqrt (n : ℝ)) := by
  have hg1 : 1 ≤ Nat.sqrt n := Nat.sqrt_pos.mpr hn
  have hgle : Nat.sqrt n * Nat.sqrt n ≤ n := Nat.sqrt_le n
  have hglt : n < (Nat.sqrt n + 1) * (Nat.sqrt n + 1) := Nat.lt_succ_sqrt n
  have hfl : ((Nat.sqrt n : ℕ) : ℝ) ≤ Real.sqrt (n : ℝ) := by
    have h := Nat.floor_le (Real.sqrt_nonneg (n : ℝ))
    rw [floor_sqrt_eq] at h
    exact h
  have hx : i % Nat.sqrt n < Nat.sqrt n := Nat.mod_lt i hg1
  have hy : i / Nat.sqrt n < Nat.sqrt n + 2 := by
    rw [Nat.div_lt_iff_lt_mul hg1]
    nlinarith
  refine ⟨by rw [floor_sqrt_eq]; exact hg1, by simp only [cellX, floor_sqrt_eq],
    by simp only [cellY, floor_sqrt_eq], ?_, ?_, ?_, ?_, ?_, ?_⟩
  · simp only [calculateDistanceEffect, cellX, cellY]
    norm_num
  · simp only [cellX]; exact Nat.cast_nonneg _
  · simp only [cellX, floor_sqrt_eq]
    have : ((i % Nat.sqrt n : ℕ) : ℝ) < ((Nat.sqrt n : ℕ) : ℝ) := by exact_mod_cast hx
    linarith
  · simp only [cellY]; exact Nat.cast_nonneg _
  · simp only [cellY, floor_sqrt_eq]
    have : i / Nat.sqrt n ≤ Nat.sqrt n + 1 := by omega
    exact_mod_cast this
  · rintro ⟨g, rfl⟩
    have hs : Nat.sqrt (g * g) = g := Nat.sqrt_eq g
    have hg : 1 ≤ g := by rw [hs] at hg1; exact hg1
    have hlt : i / g < g := by
      rw [Nat.div_lt_iff_lt_mul hg]
      exact hi
    simp only [cellY, floor_sqrt_eq, hs]
    have h1 : ((i / g : ℕ) : ℝ) < ((g : ℕ) : ℝ) := by exact_mod_cast hlt
    have h2 : ((g : ℕ) : ℝ) ≤ Real.sqrt (((g * g : ℕ)) : ℝ) := by
      rw [hs] at hfl; exact hfl
    linarith

theorem cell_bounds_witness :
    (1 ≤ 9) ∧ (5 < 9) ∧ cellX 5 9 < Real.sqrt ((9 : ℕ) : ℝ)
    ∧ cellY 5 9 < Real.sqrt ((9 : ℕ) : ℝ) :=
  ⟨by decide, by decide, (cell_bounds 5 9 (by decide) (by decide)).2.2.2.2.2.1,
    (cell_bounds 5 9 (by decide) (by decide)).2.2.2.2.2.2.2.2 ⟨3, by decide⟩⟩

/-! ## The interference factor (C12) -/

/-- C12: for every population size `n ≥ 0` and every uniform draw `u` in `[0, 1)`,
`calculateInterferenceEffect` makes that one draw and returns
`1 + (n / 1000 * c) * (0.8 + 0.4 * u)` with `c = 0.3` for `"RAP"`, `0.2` for `"EDT"` and `0.1` for
any other mode; for the same `n` and `u` the factors are ordered `RAP ≥ EDT ≥ PUR ≥ 1`, strictly
when `n ≥ 1`. -/
theorem calculateInterferenceEffect_spec {σ : Type} (G : RandomSource σ) (i n : ℕ) (s : σ)
    (hu0 : 0 ≤ (G.uniform s).1) (_hu1 : (G.uniform s).1 < 1) :
    (calculateInterferenceEffect G i n "RAP" s).1
        = 1 + ((n : ℝ) / 1000 * 0.3) * (0.8 + 0.4 * (G.uniform s).1)
    ∧ (calculateInterferenceEffect G i n "EDT" s).1
        = 1 + ((n : ℝ) / 1000 * 0.2) * (0.8 + 0.4 * (G.uniform s).1)
    ∧ (∀ mode : String, mode ≠ "RAP" → mode ≠ "EDT" →
        (calculateInterferenceEffect G i n mode s).1
          = 1 + ((n : ℝ) / 1000 * 0.1) * (0.8 + 0.4 * (G.uniform s).1))
    ∧ (∀ mode : String, (calculateInterferenceEffect G i n mode s).2 = (G.uniform s).2)
    ∧ (calculateInterferenceEffect G i n "EDT" s).1 ≤ (calculateInterferenceEffect G i n "RAP" s).1
    ∧ (calculateInterferenceEffect G i n "PUR" s).1 ≤ (calculateInterferenceEffect G i n "EDT" s).1
    ∧ 1 ≤ (calculateInterferenceEffect G i n "PUR" s).1
    ∧ (1 ≤ n →
        (calculateInterferenceEffect G i n "EDT" s).1
            < (calculateInterferenceEffect G i n "RAP" s).1
        ∧ (calculateInterferenceEffect G i n "PUR" s).1
            < (calculateInterferenceEffect G i n "EDT" s).1
        ∧ 1 < (calculateInterferenceEffect G i n "PUR" s).1) := by
  have hR : (calculateInterferenceEffect G i n "RAP" s).1
      = 1 + ((n : ℝ) / 1000 * 0.3) * (0.8 + 0.4 * (G.uniform s).1) := by
    rw [(calculateInterferenceEffect_eq G i n "RAP" s).1]
    simp only [if_true]
    ring
  have hE : (calculateInterferenceEffect G i n "EDT" s).1
      = 1 + ((n : ℝ) / 1000 * 0.2) * (0.8 + 0.4 * (G.uniform s).1) := by
    rw [(calculateInterferenceEffect_eq G i n "EDT" s).1, if_neg (by decide), if_pos rfl]
    ring
  have hO : ∀ mode : String, mode ≠ "RAP" → mode ≠ "EDT" →
      (calculateInterferenceEffect G i n mode s).1
        = 1 + ((n : ℝ) / 1000 * 0.1) * (0.8 + 0.4 * (G.uniform s).1) := by
    intro mode h1 h2
    rw [(calculateInterferenceEffect_eq G i n mode s).1]
    simp only [h1, h2, if_false]
    ring
  have hP := hO "PUR" (by decide) (by decide)
  have hn : (0 : ℝ) ≤ (n : ℝ) := Nat.cast_nonneg n
  have hj : (0 : ℝ) < 0.8 + 0.4 * (G.uniform s).1 := by linarith
  have hnj : 0 ≤ (n : ℝ) * (0.8 + 0.4 * (G.uniform s).1) := mul_nonneg hn (le_of_lt hj)
  refine ⟨hR, hE, hO, fun mode => (calculateInterferenceEffect_eq G i n mode s).2, ?_, ?_, ?_, ?_⟩
  · rw [hR, hE]; nlinarith
  · rw [hP, hE]; nlinarith
  · rw [hP]; nlinarith
  · intro h1
    have hn1 : (1 : ℝ) ≤ (n : ℝ) := by exact_mod_cast h1
    have hpos : 0 < (n : ℝ) * (0.8 + 0.4 * (G.uniform s).1) :=
      mul_pos (by linarith) hj
    rw [hR, hE, hP]
    refine ⟨?_, ?_, ?_⟩ <;> nlinarith

theorem calculateInterferenceEffect_spec_witness :
    (calculateInterferenceEffect (constantSource 0.5 0) 0 1000 "EDT" ()).1
        < (calculateInterferenceEffect (constantSource 0.5 0) 0 1000 "RAP" ()).1
    ∧ (calculateInterferenceEffect (constantSource 0.5 0) 0 1000 "PUR" ()).1
        < (calculateInterferenceEffect (constantSource 0.5 0) 0 1000 "EDT" ()).1
    ∧ 1 < (calculateInterferenceEffect (constantSource 0.5 0) 0 1000 "PUR" ()).1 :=
  (calculateInterferenceEffect_spec (constantSource 0.5 0) 0 1000 ()
    (by simp [constantSource]; norm_num) (by simp [constantSource]; norm_num)).2.2.2.2.2.2.2
    (by decide)

end NbIot
